import Mathlib

/-!
Shallow embedding of the polling/notification engine of
`tailscale-monitor` (`src/bot.py`), and proofs about its behaviour.

Timestamps are modelled as integers (epoch seconds); rational numbers
are used where the Python code manipulates float-valued instants
(the `RateLimiter`).  Python dictionaries keyed by device name are
modelled as association lists `List (String × Bool)`; a missing key
reads as `False`, mirroring `guild_state.get(name, False)`.
-/

namespace TailscaleMonitor

/-- A device entry as consumed by `monitor_devices` (`bot.py:431-446`).
`lastSeen = none` models a `lastSeen` string that
`datetime.strptime(..., "%Y-%m-%dT%H:%M:%SZ")` fails to parse (the
`except` branch at `bot.py:440-442` skips such a device); `some t` is
the parsed UTC timestamp in epoch seconds.  The human-readable message
text built from `name` and `last_seen` is not modelled. -/
structure Device where
  name : String
  lastSeen : Option Int
deriving Repr, DecidableEq

/-- One queued notification, the `(name, message, is_offline)` triple of
`bot.py:458/462` with the message text elided. -/
structure NotifEvent where
  name : String
  isOffline : Bool
deriving Repr, DecidableEq

/-- Read a device's notified flag from the per-guild state dictionary:
`guild_state.get(name, False)` (`bot.py:449`). -/
def getEntry (st : List (String × Bool)) (n : String) : Bool :=
  match st with
  | [] => false
  | (k, v) :: rest => if k = n then v else getEntry rest n

/-- Write a device's notified flag: `guild_state[name] = is_offline`
(`bot.py:485`). -/
def setEntry (st : List (String × Bool)) (n : String) (b : Bool) : List (String × Bool) :=
  match st with
  | [] => [(n, b)]
  | (k, v) :: rest => if k = n then (n, b) :: rest else (k, v) :: setEntry rest n b

/-- The allow-list test of `bot.py:434`:
`if monitored_devices and name not in monitored_devices: continue`.
Python truthiness makes both `None` and the empty list mean
"monitor everything". -/
def isMonitored (monitored : Option (List String)) (name : String) : Bool :=
  match monitored with
  | none => true
  | some l => l.isEmpty || l.contains name

/-- The fixed offline threshold: `timedelta(minutes=6)` (`bot.py:445`),
in seconds. -/
def offlineThreshold : Int := 360

/-- Whether a parsed device counts as offline:
`offline = (now - last_seen) > threshold` (`bot.py:446`). -/
def isOffline (now lastSeen : Int) : Bool :=
  decide (now - lastSeen > offlineThreshold)

/-- The per-device body of the gathering loop (`bot.py:431-462`): skip
devices excluded by the allow-list or with an unparseable `lastSeen`;
otherwise queue an event exactly when the offline status differs from
the recorded notified flag. -/
def deviceEvent (monitored : Option (List String)) (st : List (String × Bool))
    (now : Int) (d : Device) : Option NotifEvent :=
  if isMonitored monitored d.name then
    match d.lastSeen with
    | none => none
    | some t =>
        let offline := isOffline now t
        let notified := getEntry st d.name
        if offline ≠ notified then some ⟨d.name, offline⟩ else none
  else none

/-- The transition detector: the gathering loop of `bot.py:430-462`,
producing queued notifications in fetched-device order.  The state
dictionary is only read, never written, during gathering. -/
def detectEvents (monitored : Option (List String)) (st : List (String × Bool))
    (now : Int) (devices : List Device) : List NotifEvent :=
  devices.filterMap (deviceEvent monitored st now)

/-- The prioritization step of `bot.py:464-472`: when more than 10
events are queued, keep every offline event and truncate online events
to `max(0, 10 - len(offline))`.  (On `Nat`, `10 - n` already clamps at
0 exactly as Python's `max(0, 10 - n)` does.) -/
def prioritizeNotifications (l : List NotifEvent) : List NotifEvent :=
  if l.length > 10 then
    let offline := l.filter (fun n => n.isOffline)
    let online := l.filter (fun n => !n.isOffline)
    offline ++ online.take (10 - offline.length)
  else l

/-- The per-guild slice of `notification_state`: device flags plus the
`last_auth_error` / `last_api_error` entries, both defaulting to 0
(`guild_state.get("last_auth_error", 0)`, `bot.py:388/407`). -/
structure GuildState where
  devices : List (String × Bool)
  lastAuthError : Int
  lastApiError : Int
deriving Repr, DecidableEq

/-- Apply a batch of events to the per-guild state as successful
deliveries do: `guild_state[name] = is_offline` for each event in
order (`bot.py:484-485`). -/
def applyEvents (st : List (String × Bool)) : List NotifEvent → List (String × Bool)
  | [] => st
  | e :: rest => applyEvents (setEntry st e.name e.isOffline) rest

/-! ### InventoryClient: `fetch_devices` (`bot.py:288-333`) -/

/-- The observable outcome of one HTTP attempt against the Tailscale
API: a response with a status code (carrying the parsed device list in
case it is consumed), or one of the exceptions the `except` arms of
`bot.py:319-324` catch. -/
inductive AttemptOutcome where
  | response (status : Nat) (devices : List Device)
  | timeout
  | connError
  | otherExc
deriving Repr, DecidableEq

/-- The classified result of `fetch_devices`: parsed devices on 200,
the `{"_auth_error": True, "status": ...}` dictionary on 401/403, and
`None` (here `failed`) once retries are exhausted. -/
inductive FetchResult where
  | success (devices : List Device)
  | authError (status : Nat)
  | failed
deriving Repr, DecidableEq

/-- One pass of the `try` body (`bot.py:306-324`): a 200 or 401/403
response returns immediately; any other status, timeout, connection
error or unexpected exception falls through to the retry logic. -/
def attemptResult : AttemptOutcome → Option FetchResult
  | .response status ds =>
      if status = 200 then some (.success ds)
      else if status = 401 ∨ status = 403 then some (.authError status)
      else none
  | .timeout => none
  | .connError => none
  | .otherExc => none

/-- The `while retry_count <= max_retries` loop of `bot.py:292-333`,
with `attempts i` the outcome of the attempt made when
`retry_count = i`.  The second component counts the 1-second backoff
sleeps (`await asyncio.sleep(1)` at `bot.py:329`).  The fuel argument
only bounds recursion; `maxRetries + 1` always suffices because
`retryCount` grows by one per iteration and the loop stops once
`retryCount = maxRetries`. -/
def fetchLoop (attempts : Nat → AttemptOutcome) (maxRetries : Nat) :
    Nat → Nat → FetchResult × Nat
  | 0, _ => (.failed, 0)
  | fuel + 1, retryCount =>
      match attemptResult (attempts retryCount) with
      | some r => (r, 0)
      | none =>
          if retryCount < maxRetries then
            let rest := fetchLoop attempts maxRetries fuel (retryCount + 1)
            (rest.1, rest.2 + 1)
          else (.failed, 0)

/-- The default `max_retries=2` of `fetch_devices` (`bot.py:288`). -/
def defaultMaxRetries : Nat := 2

/-- `fetch_devices(api_key, session, max_retries)` as a function of the
per-attempt outcomes. -/
def fetch_devices (attempts : Nat → AttemptOutcome) (maxRetries : Nat) :
    FetchResult × Nat :=
  fetchLoop attempts maxRetries (maxRetries + 1) 0

/-! ### NotificationScheduler tick and PollLoop (`bot.py:335-505`) -/

/-- Run the `for guild in bot.guilds` loop of one tick of
`monitor_devices`.  `cycle t` is the body of the loop for tenant `t`;
`Except.error` models an exception the body does not itself catch.
Returns the tenants whose cycle was entered, and the first escaping
exception if any.  The single `try` wrapping the whole loop
(`bot.py:339/500-505`) means an escaping exception ends the `for`
statement, so no later tenant's cycle is entered. -/
def runTenantCycles (cycle : α → Except ε Unit) : List α → List α × Option ε
  | [] => ([], none)
  | t :: rest =>
      match cycle t with
      | .ok _ =>
          let r := runTenantCycles cycle rest
          (t :: r.1, r.2)
      | .error e => ([t], some e)

/-- The result of one tick: the outer `except` at `bot.py:500-505`
catches and logs any escaping exception, so a tick never propagates an
exception to the task machinery. -/
structure TickResult (α ε : Type) where
  processed : List α
  loggedError : Option ε
deriving Repr, DecidableEq

/-- One execution of the `monitor_devices` body: run the tenant loop
and catch-and-log whatever escapes. -/
def monitorDevicesTick (cycle : α → Except ε Unit) (tenants : List α) : TickResult α ε :=
  let r := runTenantCycles cycle tenants
  ⟨r.1, r.2⟩

/-- The poll loop driver: `@tasks.loop` re-invokes the (exception-free)
tick body every interval, so every scheduled tick runs no matter what
earlier ticks logged. -/
def pollLoop (cycles : Nat → α → Except ε Unit) (tenants : List α) :
    Nat → List (TickResult α ε)
  | 0 => []
  | n + 1 => pollLoop cycles tenants n ++ [monitorDevicesTick (cycles n) tenants]

/-! ### StateStore / config persistence (`bot.py:131-136`, `bot.py:494-499`) -/

/-- Where a persistence attempt can fail: `ok` (no failure), `atOpen`
(the `open(path, "w")` call itself raises, e.g. permission denied), or
`during k` (the open succeeded — truncating the file — and `json.dump`
raised after writing `k` characters of the new serialization). -/
inductive WriteFailure where
  | ok
  | atOpen
  | during (written : Nat)
deriving Repr, DecidableEq

/-- Outcome of one `save` attempt: the resulting file content, whether
an exception escaped the save (never: both sites wrap the write in
`try/except` and only log), and whether an error was logged. -/
structure SaveResult where
  fileContent : String
  raised : Bool
  logged : Bool
deriving Repr, DecidableEq

/-- `save_config` (`bot.py:131-136`) and the notification-state persist
(`bot.py:398-402`, `419-423`, `494-499`): `with open(path, "w") as f:
json.dump(obj, f)` inside `try/except`.  Opening with mode `"w"`
truncates the existing file before any data is written. -/
def saveJsonOverwrite (oldContent newContent : String) : WriteFailure → SaveResult
  | .ok => ⟨newContent, false, false⟩
  | .atOpen => ⟨oldContent, false, true⟩
  | .during k => ⟨newContent.take k, false, true⟩

/-! ### Management commands (`bot.py:507-575`, `bot.py:807-863`,
`bot.py:992-1015`, `bot.py:1017-1055`) -/

/-- A tenant's entry in `server_config` (`bot.py:548-554`). -/
structure TenantConfig where
  apiKey : String
  pollInterval : Int
  devices : Option (List String)
  notificationChannelId : Nat
  monitoringStopped : Bool
deriving Repr, DecidableEq

/-- The `!setup` command (`bot.py:507-575`) as a state transformer on
this guild's config entry.  `devices` is the already-split device list
(`None` when the argument is omitted).  The API key is validated by a
test `fetch_devices` call: only a `None` result aborts
(`bot.py:537-539`); otherwise the new config is stored with the
poll interval exactly as given — no lower bound is checked. -/
def setupCommand (cfg : Option TenantConfig) (apiKey : String) (pollInterval : Int)
    (devices : Option (List String)) (channelId : Nat) (testFetch : FetchResult) :
    Option TenantConfig :=
  match testFetch with
  | .failed => cfg
  | _ => some ⟨apiKey, pollInterval, devices, channelId, false⟩

/-- The `!interval` command (`bot.py:992-1015`): rejects an unconfigured
guild and any value below 60 seconds; otherwise stores the new
interval. -/
def intervalCommand (cfg : Option TenantConfig) (seconds : Int) : Option TenantConfig :=
  match cfg with
  | none => none
  | some c => if seconds < 60 then some c else some { c with pollInterval := seconds }

/-- The all-devices branch of `!remove` (`bot.py:822-842`): when the
config has no allow-list, build one from every fetched device name not
in the removal list, and store it — even when it comes out empty. -/
def removeFromAllDevices (allNames : List String) (toRemove : List String) : List String :=
  allNames.filter (fun d => !toRemove.contains d)

/-- The device line of `!config` (`bot.py:1046-1053`). -/
def monitoredDevicesText (devices : Option (List String)) : String :=
  match devices with
  | none => "All devices"
  | some l =>
      if l.isEmpty then "No devices (monitoring disabled)"
      else String.intercalate ", " l

/-! ### RateLimiter (`bot.py:45-104`) and the module environment -/

/-- The names bound at module level in `bot.py`: the imports of lines
1-14, 27-28 and 676, and every top-level assignment, `def`, `class` and
`with ... as` binding.  Crucially, the `time` module is never
imported. -/
def moduleGlobals : List String :=
  ["os", "json", "sys", "gc", "asyncio", "aiohttp", "socket", "traceback",
   "subprocess", "logging", "atexit", "signal", "datetime", "timezone",
   "timedelta", "deque", "logger", "discord", "commands", "tasks",
   "functools", "CONFIG_DIR", "STATE_FILE", "notification_state",
   "RateLimiter", "global_rate_limiter", "server_config", "CONFIG_FILE",
   "save_config", "TAILSCALE_API_URL", "intents", "DNSCache", "dns_cache",
   "CachingResolver", "create_aiohttp_session", "CustomHTTPClient", "bot",
   "help_command", "fetch_devices", "monitor_devices", "setup", "on_ready",
   "on_command_error", "on_message", "reload_config_from_disk",
   "reload_config", "set_channel", "list_devices", "add_devices",
   "remove_devices", "ping_device", "send_message_with_rate_limit",
   "start_monitoring", "stop_monitoring", "set_interval", "show_config",
   "status", "run_network_diagnostics", "cleanup_resources",
   "signal_handler", "token", "diag_arg", "f", "e"]

/-- Result of evaluating a Python expression or statement: a value, or
a `NameError` for an unresolvable name. -/
inductive PyOutcome (α : Type) where
  | ok (value : α)
  | nameError (name : String)
deriving Repr, DecidableEq

/-- The mutable fields of a `RateLimiter` instance plus its
construction parameters (`bot.py:46-50`).  `messageTimestamps` is the
`deque(maxlen=100)`, oldest first. -/
structure RateLimiterState where
  rateLimitPerSecond : ℚ
  burstLimit : Nat
  messageTimestamps : List ℚ
  retryAfter : ℚ
deriving Repr, DecidableEq

/-- The global limiter of `bot.py:107`:
`RateLimiter(rate_limit_per_second=0.5, burst_limit=5)`. -/
def globalRateLimiterInit : RateLimiterState :=
  ⟨1 / 2, 5, [], 0⟩

/-- The timestamp-cleanup loop of `bot.py:64-65`:
`while self.message_timestamps and self.message_timestamps[0] < now - 60:
popleft()`. -/
def dropOld (now : ℚ) : List ℚ → List ℚ
  | [] => []
  | t :: rest => if t < now - 60 then dropOld now rest else t :: rest

/-- Python's negative indexing `l[-k]`, i.e. the element at position
`len(l) - k`.  Only evaluated under the guard `len(l) ≥ k` in
`acquire`, so the default for an out-of-range index is never hit
there. -/
def negIndex (l : List ℚ) (k : Nat) : ℚ :=
  (l.get? (l.length - k)).getD 0

/-- `deque.append` with `maxlen=100`: appending to a full deque
discards the oldest element (`bot.py:49/76`). -/
def dequeAppend (l : List ℚ) (t : ℚ) : List ℚ :=
  if l.length ≥ 100 then l.tail ++ [t] else l ++ [t]

/-- The body of `acquire` after the (failing) `now = time.time()` line
(`bot.py:54-77`), for reference: the retry-after wait, the cleanup, the
burst throttle, and the timestamp append.  Returns the new state and
the total time slept; the appended timestamp is the second
`time.time()` read, modelled as `now` advanced by the sleep. -/
def acquireBody (st : RateLimiterState) (now : ℚ) : RateLimiterState × ℚ :=
  if st.retryAfter > now then
    (st, st.retryAfter - now)
  else
    let ts := dropOld now st.messageTimestamps
    let wait :=
      if ts.length ≥ st.burstLimit then
        max 0 (1 / st.rateLimitPerSecond - (now - negIndex ts st.burstLimit))
      else 0
    ({ st with messageTimestamps := dequeAppend ts (now + wait) }, wait)

/-- `RateLimiter.acquire` (`bot.py:52-77`).  Its first statement is
`now = time.time()`, which begins by resolving the name `time` in the
enclosing scopes; `env` is the set of module-level names.  Only if that
lookup succeeds does the body run. -/
def acquire (env : List String) (st : RateLimiterState) (now : ℚ) :
    PyOutcome (RateLimiterState × ℚ) :=
  if env.contains "time" then .ok (acquireBody st now)
  else .nameError "time"

/-- The rate-limit telemetry headers read by `update_from_response`
(`bot.py:82-84`), already converted to numbers (`float`/`int` on the
raw header strings). -/
structure ResponseHeaders where
  retryAfterHeader : Option ℚ
  remainingHeader : Option Int
  resetAfterHeader : Option ℚ
deriving Repr, DecidableEq

/-- `RateLimiter.update_from_response` (`bot.py:79-104`).  The header
reads need no name lookup beyond locals, but both limiting branches
evaluate `time.time() + ...` (`bot.py:89/100`), which resolves `time`
in `env`. -/
def updateFromResponse (env : List String) (st : RateLimiterState) (now : ℚ)
    (h : ResponseHeaders) : PyOutcome (RateLimiterState × Bool) :=
  match h.retryAfterHeader with
  | some r =>
      if env.contains "time" then .ok ({ st with retryAfter := now + r }, true)
      else .nameError "time"
  | none =>
      match h.remainingHeader, h.resetAfterHeader with
      | some rem, some reset =>
          if rem = 0 then
            if env.contains "time" then .ok ({ st with retryAfter := now + reset }, true)
            else .nameError "time"
          else .ok (st, false)
      | _, _ => .ok (st, false)

/-- `send_message_with_rate_limit` (`bot.py:934-959`), reduced to its
admission gate: the outer `try` first awaits
`global_rate_limiter.acquire()` (`bot.py:938`); the outer `except`
logs any exception and re-raises it (`bot.py:957-959`), so a failure
inside `acquire` propagates unchanged to the caller.  The Discord send
itself and its rate-limit header feedback are external effects not
modelled here. -/
def sendMessageWithRateLimit (env : List String) (rl : RateLimiterState)
    (now : ℚ) : PyOutcome (RateLimiterState × ℚ) :=
  acquire env rl now

/-- The auth-error branch of `monitor_devices` (`bot.py:386-403`): when
more than 3600 s have elapsed since `last_auth_error`, the operator
alert is sent through `send_message_with_rate_limit` (`bot.py:392`) and
only then is `last_auth_error` updated (`bot.py:397`).  There is no
`try` around the send, so an exception from it escapes the branch
before the update.  Returns whether an alert was sent together with
the new state, or the escaping exception. -/
def handleAuthError (env : List String) (rl : RateLimiterState) (rlNow : ℚ)
    (st : GuildState) (currentTime : Int) : PyOutcome (Bool × GuildState) :=
  if currentTime - st.lastAuthError > 3600 then
    match sendMessageWithRateLimit env rl rlNow with
    | .nameError n => .nameError n
    | .ok _ => .ok (true, { st with lastAuthError := currentTime })
  else
    .ok (false, st)

/-- The transient-failure branch (`bot.py:404-424`): identical 3600 s
window keyed on `last_api_error`, with the same unguarded send
(`bot.py:412`) before the update (`bot.py:417`). -/
def handleApiError (env : List String) (rl : RateLimiterState) (rlNow : ℚ)
    (st : GuildState) (currentTime : Int) : PyOutcome (Bool × GuildState) :=
  if currentTime - st.lastApiError > 3600 then
    match sendMessageWithRateLimit env rl rlNow with
    | .nameError n => .nameError n
    | .ok _ => .ok (true, { st with lastApiError := currentTime })
  else
    .ok (false, st)

/-- The delivery loop of `bot.py:474-492`.  Each iteration first awaits
`global_rate_limiter.acquire()` (`bot.py:477`) — outside the `try` —
and then attempts the guarded send; `sendOk e` tells whether the
guarded send completes for event `e`.  Only a successful send updates
the device's flag (`bot.py:485`); an exception inside the `try` is
caught and logged (`bot.py:491-492`) and the loop moves on, but an
exception escaping `acquire` aborts the whole batch.  On completion
returns the final state and the attempted sends in order; the
rate-limiter clock is advanced by each acquire's sleep. -/
def deliverEvents (env : List String) (sendOk : NotifEvent → Bool)
    (rl : RateLimiterState) (rlNow : ℚ) (st : List (String × Bool)) :
    List NotifEvent → PyOutcome (List (String × Bool) × List String)
  | [] => .ok (st, [])
  | e :: rest =>
      match acquire env rl rlNow with
      | .nameError n => .nameError n
      | .ok ar =>
          let st' := if sendOk e then setEntry st e.name e.isOffline else st
          match deliverEvents env sendOk ar.1 (rlNow + ar.2) st' rest with
          | .nameError n => .nameError n
          | .ok r => .ok (r.1, e.name :: r.2)

/-- A concrete batch of 5 "went offline" candidates. -/
def exampleOffline : List NotifEvent :=
  [⟨"off1", true⟩, ⟨"off2", true⟩, ⟨"off3", true⟩, ⟨"off4", true⟩, ⟨"off5", true⟩]

/-- A concrete batch of 10 "came back online" candidates. -/
def exampleOnline : List NotifEvent :=
  [⟨"on1", false⟩, ⟨"on2", false⟩, ⟨"on3", false⟩, ⟨"on4", false⟩,
   ⟨"on5", false⟩, ⟨"on6", false⟩, ⟨"on7", false⟩, ⟨"on8", false⟩,
   ⟨"on9", false⟩, ⟨"on10", false⟩]

/-! ## Helper lemmas -/

theorem length_filter_add_length_filter_not (p : α → Bool) (l : List α) :
    (l.filter p).length + (l.filter (fun a => !p a)).length = l.length := by
  induction l with
  | nil => rfl
  | cons a t ih =>
      by_cases hp : p a <;> simp [List.filter_cons, hp] <;> omega

theorem getEntry_setEntry_self (st : List (String × Bool)) (n : String) (b : Bool) :
    getEntry (setEntry st n b) n = b := by
  induction st with
  | nil => simp [setEntry, getEntry]
  | cons p rest ih =>
      obtain ⟨k, v⟩ := p
      by_cases h : k = n <;> simp [setEntry, getEntry, h, ih]

theorem getEntry_setEntry_ne (st : List (String × Bool)) {k n : String} (b : Bool)
    (h : k ≠ n) : getEntry (setEntry st k b) n = getEntry st n := by
  induction st with
  | nil => simp [setEntry, getEntry, h]
  | cons p rest ih =>
      obtain ⟨k0, v0⟩ := p
      by_cases h0 : k0 = k
      · subst h0
        simp [setEntry, getEntry, h]
      · by_cases h1 : k0 = n
        · subst h1
          simp [setEntry, getEntry, h0]
        · simp [setEntry, getEntry, h0, h1, ih]

theorem getEntry_applyEvents_not_mem (st : List (String × Bool))
    (evs : List NotifEvent) (n : String) (h : n ∉ evs.map NotifEvent.name) :
    getEntry (applyEvents st evs) n = getEntry st n := by
  induction evs generalizing st with
  | nil => rfl
  | cons e rest ih =>
      have h1 : e.name ≠ n := by
        intro hc
        exact h (by simp [hc])
      have h2 : n ∉ rest.map NotifEvent.name := by
        intro hc
        exact h (by simp [hc])
      simp only [applyEvents]
      rw [ih _ h2, getEntry_setEntry_ne _ _ h1]

theorem getEntry_applyEvents_mem (e : NotifEvent) :
    ∀ (evs : List NotifEvent) (st : List (String × Bool)),
      (evs.map NotifEvent.name).Nodup → e ∈ evs →
      getEntry (applyEvents st evs) e.name = e.isOffline := by
  intro evs
  induction evs with
  | nil =>
      intro st _ he
      cases he
  | cons e0 rest ih =>
      intro st h he
      rw [List.map_cons] at h
      rcases List.mem_cons.mp he with rfl | hmem
      · simp only [applyEvents]
        rw [getEntry_applyEvents_not_mem _ _ _ (List.nodup_cons.mp h).1,
          getEntry_setEntry_self]
      · simp only [applyEvents]
        exact ih _ (List.nodup_cons.mp h).2 hmem

theorem deviceEvent_some {m : Option (List String)} {st : List (String × Bool)}
    {now : Int} {d : Device} {ev : NotifEvent}
    (h : deviceEvent m st now d = some ev) :
    ∃ t, d.lastSeen = some t ∧ ev = ⟨d.name, isOffline now t⟩
      ∧ isOffline now t ≠ getEntry st d.name ∧ isMonitored m d.name = true := by
  by_cases hm : isMonitored m d.name = true
  · cases hls : d.lastSeen with
    | none => simp [deviceEvent, hm, hls] at h
    | some t =>
        by_cases hne : isOffline now t ≠ getEntry st d.name
        · refine ⟨t, rfl, ?_, hne, hm⟩
          have h' : deviceEvent m st now d = some ⟨d.name, isOffline now t⟩ := by
            simp [deviceEvent, hm, hls, hne]
          exact (Option.some.inj (h'.symm.trans h)).symm
        · exfalso
          push_neg at hne
          have h' : deviceEvent m st now d = none := by
            simp [deviceEvent, hm, hls, hne]
          exact Option.noConfusion (h'.symm.trans h)
  · exfalso
    have h' : deviceEvent m st now d = none := by
      simp [deviceEvent, hm]
    exact Option.noConfusion (h'.symm.trans h)

theorem detectEvents_names_sublist (m : Option (List String))
    (st : List (String × Bool)) (now : Int) (devices : List Device) :
    ((detectEvents m st now devices).map NotifEvent.name).Sublist
      (devices.map Device.name) := by
  induction devices with
  | nil => simp [detectEvents]
  | cons d rest ih =>
      simp only [detectEvents, List.filterMap_cons, List.map_cons]
      cases hde : deviceEvent m st now d with
      | none => exact List.Sublist.cons _ ih
      | some ev =>
          obtain ⟨t, hls, hev, hne, hm⟩ := deviceEvent_some hde
          subst hev
          simp only [List.map_cons]
          exact List.Sublist.cons₂ _ ih

/-! ## Claims -/

/-- C3: for every candidate notification list with more than 10 events,
the delivered set keeps every "went offline" event and truncates
"came back online" events to fill the remaining budget up to 10 total;
in particular, 5 offline plus 10 online candidates yield all 5 offline
and exactly 5 online events. -/
theorem prioritization_under_load (l : List NotifEvent) (h : 10 < l.length) :
    (∀ e ∈ l, e.isOffline = true → e ∈ prioritizeNotifications l)
    ∧ prioritizeNotifications l =
        l.filter (fun n => n.isOffline) ++
          (l.filter (fun n => !n.isOffline)).take
            (10 - (l.filter (fun n => n.isOffline)).length)
    ∧ ((l.filter (fun n => n.isOffline)).length ≤ 10 →
        (prioritizeNotifications l).length = 10)
    ∧ prioritizeNotifications (exampleOffline ++ exampleOnline) =
        exampleOffline ++ exampleOnline.take 5
    ∧ ((prioritizeNotifications (exampleOffline ++ exampleOnline)).filter
        (fun n => n.isOffline)).length = 5
    ∧ (prioritizeNotifications (exampleOffline ++ exampleOnline)).length = 10 := by
  have hif : prioritizeNotifications l =
      l.filter (fun n => n.isOffline) ++
        (l.filter (fun n => !n.isOffline)).take
          (10 - (l.filter (fun n => n.isOffline)).length) := by
    simp [prioritizeNotifications, if_pos h]
  refine ⟨?_, hif, ?_, by decide, by decide, by decide⟩
  · intro e he heo
    rw [hif]
    exact List.mem_append_left _ (List.mem_filter.mpr ⟨he, heo⟩)
  · intro hle
    have hsplit := length_filter_add_length_filter_not (fun n => n.isOffline) l
    rw [hif]
    simp only [List.length_append, List.length_take]
    omega

/-- C3 witness: the theorem applied to the concrete 15-event batch. -/
theorem prioritization_under_load_witness :
    prioritizeNotifications (exampleOffline ++ exampleOnline) =
      exampleOffline ++ exampleOnline.take 5 :=
  (prioritization_under_load (exampleOffline ++ exampleOnline)
    (by decide)).2.2.2.1

/-- C5: code-bug evidence.  Once the 3600 s suppression window has
elapsed, the branch calls the alert send, whose first action is
`global_rate_limiter.acquire()`; under the module's actual name
environment that raises `NameError` before the timestamp update, so no
operator alert is ever sent and `lastAuthError`/`lastApiError` are
never updated (two errors 3601 s apart yield zero alerts, not two).
With `time` bound, both branches would behave exactly as the claim
states: alert iff more than 3600 s elapsed, update on send. -/
theorem error_alert_blocked_by_name_error (rl : RateLimiterState)
    (rlNow : ℚ) (st : GuildState) (t : Int) :
    handleAuthError moduleGlobals rl rlNow st t =
      (if 3600 < t - st.lastAuthError then .nameError "time"
       else .ok (false, st))
    ∧ handleApiError moduleGlobals rl rlNow st t =
      (if 3600 < t - st.lastApiError then .nameError "time"
       else .ok (false, st))
    ∧ handleAuthError ("time" :: moduleGlobals) rl rlNow st t =
      (if 3600 < t - st.lastAuthError then
        .ok (true, { st with lastAuthError := t })
       else .ok (false, st))
    ∧ handleApiError ("time" :: moduleGlobals) rl rlNow st t =
      (if 3600 < t - st.lastApiError then
        .ok (true, { st with lastApiError := t })
       else .ok (false, st)) := by
  have hc : "time" ∉ moduleGlobals := by decide
  refine ⟨?_, ?_, ?_, ?_⟩ <;>
    · simp only [handleAuthError, handleApiError, sendMessageWithRateLimit,
        acquire]
      split <;> simp [hc]

/-- C4: `fetch_devices` classifies every outcome: HTTP 200 returns the
parsed list; 401/403 returns the auth-error value immediately without
retrying; any other status, timeout or connection error is retried up
to 2 additional attempts with one backoff sleep between attempts, and
exhausting retries yields the transient-failure sentinel. -/
theorem fetch_devices_classification (attempts : Nat → AttemptOutcome) :
    (∀ ds, attempts 0 = .response 200 ds →
        fetch_devices attempts defaultMaxRetries = (.success ds, 0))
    ∧ (∀ s ds, (s = 401 ∨ s = 403) → attempts 0 = .response s ds →
        fetch_devices attempts defaultMaxRetries = (.authError s, 0))
    ∧ (∀ ds, attemptResult (attempts 0) = none → attempts 1 = .response 200 ds →
        fetch_devices attempts defaultMaxRetries = (.success ds, 1))
    ∧ ((∀ i, i ≤ defaultMaxRetries → attemptResult (attempts i) = none) →
        fetch_devices attempts defaultMaxRetries = (.failed, defaultMaxRetries)) := by
  refine ⟨?_, ?_, ?_, ?_⟩
  · intro ds h0
    simp [fetch_devices, defaultMaxRetries, fetchLoop, h0, attemptResult]
  · intro s ds hs h0
    rcases hs with rfl | rfl <;>
      simp [fetch_devices, defaultMaxRetries, fetchLoop, h0, attemptResult]
  · intro ds h0 h1
    have e1 : attemptResult (attempts 1) = some (.success ds) := by
      rw [h1]
      simp [attemptResult]
    simp [fetch_devices, defaultMaxRetries, fetchLoop, h0, e1]
  · intro h
    simp [fetch_devices, defaultMaxRetries, fetchLoop,
      h 0 (by decide), h 1 (by decide), h 2 (by decide)]

/-- C4 witness: three consecutive timeouts exhaust the retries with two
backoff sleeps; a connection error followed by a 200 succeeds after one
sleep. -/
theorem fetch_devices_classification_witness :
    fetch_devices (fun _ => .timeout) defaultMaxRetries = (.failed, 2)
    ∧ fetch_devices (fun i => if i = 0 then .connError else .response 200 [])
        defaultMaxRetries = (.success [], 1) :=
  ⟨(fetch_devices_classification (fun _ => .timeout)).2.2.2 (fun _ _ => rfl),
   (fetch_devices_classification
      (fun i => if i = 0 then .connError else .response 200 [])).2.2.1 [] rfl rfl⟩

/-- C6: code-bug evidence.  The delivery loop awaits
`global_rate_limiter.acquire()` outside the `try` guarding each send;
under the module's actual name environment that raises `NameError` on
the first event, aborting the whole batch — nothing is delivered and
no state entry updates — while the empty batch is unaffected.  With
`time` bound, the loop never raises and attempts every event of the
batch, as the claim intends. -/
theorem delivery_loop_aborts (sendOk : NotifEvent → Bool)
    (rl : RateLimiterState) (rlNow : ℚ) (st : List (String × Bool))
    (e : NotifEvent) (evs : List NotifEvent) :
    deliverEvents moduleGlobals sendOk rl rlNow st (e :: evs)
      = .nameError "time"
    ∧ deliverEvents moduleGlobals sendOk rl rlNow st [] = .ok (st, [])
    ∧ ∀ (evs' : List NotifEvent) (rl' : RateLimiterState) (rlNow' : ℚ)
        (st' : List (String × Bool)),
        ∃ r, deliverEvents ("time" :: moduleGlobals) sendOk rl' rlNow' st' evs'
          = .ok r ∧ r.2 = evs'.map NotifEvent.name := by
  have hc : "time" ∉ moduleGlobals := by decide
  refine ⟨?_, rfl, ?_⟩
  · simp [deliverEvents, acquire, hc]
  · intro evs'
    induction evs' with
    | nil =>
        intro rl' rlNow' st'
        exact ⟨(st', []), rfl, rfl⟩
    | cons e0 rest ih =>
        intro rl' rlNow' st'
        have hacq : acquire ("time" :: moduleGlobals) rl' rlNow' =
            .ok (acquireBody rl' rlNow') := by
          simp [acquire]
        obtain ⟨r, hr, hnames⟩ := ih (acquireBody rl' rlNow').1
          (rlNow' + (acquireBody rl' rlNow').2)
          (if sendOk e0 then setEntry st' e0.name e0.isOffline else st')
        refine ⟨(r.1, e0.name :: r.2), ?_, by simp [hnames]⟩
        simp only [deliverEvents, hacq]
        rw [hr]

/-- C7 counterexample: a write failure during serialization leaves the
file truncated — the previously-persisted content is not preserved, so
persistence is not atomic with respect to write failure. -/
theorem persist_truncation_counterexample :
    (saveJsonOverwrite "old-state" "new-state" (.during 0)).raised = false
    ∧ (saveJsonOverwrite "old-state" "new-state" (.during 0)).fileContent = ""
    ∧ ¬(saveJsonOverwrite "old-state" "new-state" (.during 0)).fileContent
        = "old-state" := by
  refine ⟨rfl, rfl, by decide⟩

/-- C7 amended: a failed write of the notification state or
configuration is logged and non-fatal, and a failure to open leaves the
old content intact; but because the file is opened in truncating mode,
a failure during serialization can corrupt previously-persisted
content. -/
theorem persist_best_effort (old new : String) (f : WriteFailure) :
    (saveJsonOverwrite old new f).raised = false
    ∧ (f ≠ .ok → (saveJsonOverwrite old new f).logged = true)
    ∧ (f = .atOpen → (saveJsonOverwrite old new f).fileContent = old)
    ∧ (f = .ok → (saveJsonOverwrite old new f).fileContent = new) := by
  cases f <;> simp [saveJsonOverwrite]

/-- C7 witness: a failure at `open` is logged, non-fatal and preserves
the old content. -/
theorem persist_best_effort_witness :
    (saveJsonOverwrite "old-state" "new-state" .atOpen).raised = false
    ∧ (saveJsonOverwrite "old-state" "new-state" .atOpen).logged = true
    ∧ (saveJsonOverwrite "old-state" "new-state" .atOpen).fileContent = "old-state" :=
  ⟨(persist_best_effort "old-state" "new-state" .atOpen).1,
   (persist_best_effort "old-state" "new-state" .atOpen).2.1 (by decide),
   (persist_best_effort "old-state" "new-state" .atOpen).2.2.1 rfl⟩

/-- C9 counterexample: `!setup` performs no lower-bound check on the
poll interval: a setup with interval 10 (below 60) is persisted
as-is. -/
theorem setup_stores_small_interval_counterexample :
    setupCommand none "k" 10 none 1 (.success [])
      = some ⟨"k", 10, none, 1, false⟩
    ∧ (10 : Int) < 60 := by
  exact ⟨rfl, by decide⟩

/-- C9 amended: the `!interval` command rejects values below 60 and
never stores one (preserving an interval ≥ 60 once present), but the
`!setup` command stores whatever interval it is given, so values below
60 can be persisted. -/
theorem interval_validation (c : TenantConfig) (s : Int) :
    (s < 60 → intervalCommand (some c) s = some c)
    ∧ (¬s < 60 → intervalCommand (some c) s = some { c with pollInterval := s })
    ∧ (∀ c', intervalCommand (some c) s = some c' →
        c.pollInterval ≥ 60 → c'.pollInterval ≥ 60)
    ∧ intervalCommand none s = none
    ∧ (∀ apiKey devs ch ds cfg, setupCommand cfg apiKey s devs ch (.success ds) =
        some ⟨apiKey, s, devs, ch, false⟩) := by
  refine ⟨?_, ?_, ?_, rfl, fun apiKey devs ch ds cfg => rfl⟩
  · intro hs
    simp [intervalCommand, hs]
  · intro hs
    simp [intervalCommand, hs]
  · intro c' hc' hge
    by_cases hs : s < 60
    · simp only [intervalCommand, if_pos hs, Option.some.injEq] at hc'
      rw [← hc']
      exact hge
    · simp only [intervalCommand, if_neg hs, Option.some.injEq] at hc'
      rw [← hc']
      show s ≥ 60
      omega

/-- C9 witness: the interval command leaves a config unchanged on a
too-small value and stores a value of at least 60. -/
theorem interval_validation_witness :
    intervalCommand (some ⟨"k", 60, none, 1, false⟩) 30
      = some ⟨"k", 60, none, 1, false⟩
    ∧ intervalCommand (some ⟨"k", 60, none, 1, false⟩) 120
      = some ⟨"k", 120, none, 1, false⟩ :=
  ⟨(interval_validation ⟨"k", 60, none, 1, false⟩ 30).1 (by decide),
   (interval_validation ⟨"k", 60, none, 1, false⟩ 120).2.1 (by decide)⟩

/-- C10: an empty allow-list (reachable by removing every device while
monitoring all) behaves in the monitoring cycle exactly like no
allow-list — every fetched device is monitored — although the `!config`
display calls it "monitoring disabled". -/
theorem empty_allowlist_monitors_all :
    (∀ name, isMonitored (some []) name = true)
    ∧ (∀ name, isMonitored none name = true)
    ∧ (∀ st now ds, detectEvents (some ([] : List String)) st now ds
        = detectEvents none st now ds)
    ∧ (∀ l : List String, removeFromAllDevices l l = [])
    ∧ monitoredDevicesText (some []) = "No devices (monitoring disabled)"
    ∧ monitoredDevicesText none = "All devices" := by
  refine ⟨fun name => rfl, fun name => rfl, ?_, ?_, rfl, rfl⟩
  · intro st now ds
    apply List.filterMap_congr
    intro d _
    simp [deviceEvent, isMonitored]
  · intro l
    rw [removeFromAllDevices, List.filter_eq_nil_iff]
    intro a ha
    simp [ha]

/-- C2: contrary to the never-raises contract, every call to
`RateLimiter.acquire` raises `NameError` — its first statement reads
`time.time()` but the name `time` is not bound at module level (the
`time` module is never imported) — and `update_from_response` raises
the same way whenever either rate-limiting branch is taken. -/
theorem rate_limiter_time_unbound (st : RateLimiterState) (now : ℚ) :
    acquire moduleGlobals st now = .nameError "time"
    ∧ (∀ (r : ℚ) (rem : Option Int) (reset : Option ℚ),
        updateFromResponse moduleGlobals st now ⟨some r, rem, reset⟩
          = .nameError "time")
    ∧ (∀ reset : ℚ,
        updateFromResponse moduleGlobals st now ⟨none, some 0, some reset⟩
          = .nameError "time")
    ∧ updateFromResponse moduleGlobals st now ⟨none, none, none⟩
        = .ok (st, false) := by
  have hc : "time" ∉ moduleGlobals := by decide
  refine ⟨?_, ?_, ?_, ?_⟩
  · simp [acquire, hc]
  · intro r rem reset
    simp [updateFromResponse, hc]
  · intro reset
    simp [updateFromResponse, hc]
  · simp [updateFromResponse]

/-- C1 counterexample: with two tenants where the first tenant's cycle
raises, the second tenant is not processed in that tick — the
exception aborts the remainder of the `for` loop before being caught by
the tick-level handler. -/
theorem tick_abort_counterexample :
    (monitorDevicesTick
        (fun n => if n = 1 then (Except.error "boom" : Except String Unit)
          else .ok ())
        [1, 2]).processed = [1]
    ∧ (2 : Nat) ∉ (monitorDevicesTick
        (fun n => if n = 1 then (Except.error "boom" : Except String Unit)
          else .ok ())
        [1, 2]).processed
    ∧ (monitorDevicesTick
        (fun n => if n = 1 then (Except.error "boom" : Except String Unit)
          else .ok ())
        [1, 2]).loggedError = some "boom" := by
  refine ⟨rfl, by decide, rfl⟩

/-- C1 amended: an unexpected exception in one tenant's cycle is caught
at the tick boundary and logged, and the poll loop keeps running (every
scheduled tick still executes); but the remaining tenants of the same
tick are skipped — the tick processes exactly the tenants up to and
including the failing one. -/
theorem tick_error_contained {α ε : Type} (cycle : α → Except ε Unit)
    (ts1 : List α) (t : α) (ts2 : List α) (e : ε)
    (h1 : ∀ x ∈ ts1, cycle x = Except.ok ())
    (h2 : cycle t = Except.error e) :
    monitorDevicesTick cycle (ts1 ++ t :: ts2) = ⟨ts1 ++ [t], some e⟩
    ∧ ∀ (cycles : Nat → α → Except ε Unit) (tenants : List α) (n : Nat),
        (pollLoop cycles tenants n).length = n := by
  constructor
  · induction ts1 with
    | nil => simp [monitorDevicesTick, runTenantCycles, h2]
    | cons a rest ih =>
        have ha : cycle a = Except.ok () := h1 a (List.mem_cons_self a rest)
        have hr := ih fun x hx => h1 x (List.mem_cons_of_mem a hx)
        simp only [monitorDevicesTick, TickResult.mk.injEq] at hr
        simp [monitorDevicesTick, runTenantCycles, ha, hr.1, hr.2]
  · intro cycles tenants n
    induction n with
    | zero => rfl
    | succ k ihn => simp [pollLoop, ihn]

/-- C1 witness: a two-tenant tick whose first cycle raises processes
only the first tenant and logs the error; the poll loop still executes
all of its scheduled ticks. -/
theorem tick_error_contained_witness :
    monitorDevicesTick
        (fun n => if n = 0 then (Except.error "e" : Except String Unit)
          else .ok ())
        [0, 5] = ⟨[0], some "e"⟩
    ∧ (pollLoop (fun _ _ => (Except.ok () : Except String Unit))
        ([] : List Nat) 3).length = 3 := by
  have h := tick_error_contained
    (fun n => if n = 0 then (Except.error "e" : Except String Unit) else .ok ())
    [] 0 [5] "e" (fun x hx => absurd hx (List.not_mem_nil x)) (by rfl)
  exact ⟨h.1, h.2 (fun _ _ => .ok ()) [] 3⟩

/-- C8: running the transition detector a second time — with the same
device data and the state updated by the first run's events — produces
zero events, provided device names are unique (as the inventory API
guarantees). -/
theorem detector_idempotent (m : Option (List String))
    (st : List (String × Bool)) (now : Int) (devices : List Device)
    (h : (devices.map Device.name).Nodup) :
    detectEvents m (applyEvents st (detectEvents m st now devices)) now devices
      = [] := by
  set evs := detectEvents m st now devices with hevs
  have hnodup : (evs.map NotifEvent.name).Nodup :=
    (detectEvents_names_sublist m st now devices).nodup h
  rw [detectEvents, List.filterMap_eq_nil_iff]
  intro d hd
  by_cases hm : isMonitored m d.name = true
  · cases hls : d.lastSeen with
    | none => simp [deviceEvent, hls]
    | some t =>
        have hflag : getEntry (applyEvents st evs) d.name = isOffline now t := by
          cases hde : deviceEvent m st now d with
          | some ev =>
              obtain ⟨t', hls', hev, hne, _⟩ := deviceEvent_some hde
              rw [hls] at hls'
              injection hls' with ht
              subst ht
              have hmem : ev ∈ evs := by
                rw [hevs, detectEvents]
                exact List.mem_filterMap.mpr ⟨d, hd, hde⟩
              have hget := getEntry_applyEvents_mem ev evs st hnodup hmem
              rw [hev] at hget
              simpa using hget
          | none =>
              have heq : isOffline now t = getEntry st d.name := by
                simp only [deviceEvent, hm, if_true, hls] at hde
                by_cases hne : isOffline now t ≠ getEntry st d.name
                · rw [if_pos hne] at hde
                  cases hde
                · push_neg at hne
                  exact hne
              have hnm : d.name ∉ evs.map NotifEvent.name := by
                intro hmem
                obtain ⟨ev, hev_mem, hev_name⟩ := List.mem_map.mp hmem
                rw [hevs, detectEvents] at hev_mem
                obtain ⟨d', hd', hde'⟩ := List.mem_filterMap.mp hev_mem
                obtain ⟨t2, hls2, hev2, hne2, hm2⟩ := deviceEvent_some hde'
                have hname : d'.name = d.name := by
                  rw [← hev_name, hev2]
                have hdd : d' = d := List.inj_on_of_nodup_map h hd' hd hname
                rw [hdd, hde] at hde'
                cases hde'
              rw [getEntry_applyEvents_not_mem _ _ _ hnm, ← heq]
        simp [deviceEvent, hm, hls, hflag]
  · simp [deviceEvent, hm]

/-- C8 witness: with devices `a` (last seen 1000 s ago, offline) and
`b` (last seen 100 s ago, online) and empty initial state, the first
run emits an event for `a`; after applying it, a second run emits
nothing. -/
theorem detector_idempotent_witness :
    (List.map Device.name
      [⟨"a", some 0⟩, ⟨"b", some 900⟩]).Nodup
    ∧ detectEvents none
        (applyEvents [] (detectEvents none [] 1000
          [⟨"a", some 0⟩, ⟨"b", some 900⟩])) 1000
        [⟨"a", some 0⟩, ⟨"b", some 900⟩] = [] :=
  ⟨by decide, detector_idempotent none [] 1000
    [⟨"a", some 0⟩, ⟨"b", some 900⟩] (by decide)⟩

end TailscaleMonitor
